import Mathlib

/-
Verification of the wallet-session and mint-workflow state machines of the
Web3Playground repository.

Shallow embedding conventions:
- React `useState` state is collected into explicit state records, and each
  handler of the source becomes a function from (environment, state) to
  (state, emitted chain/provider interactions).  A read of a state variable
  inside a handler is modelled as a read of the current state.
- Chain and provider responses (account lists, balances, allowances, fee
  constants, transaction outcomes) are supplied by an environment record,
  since the chain is an external collaborator reached only through a fixed
  method surface.
- uint256 token amounts are modelled as `Nat`: the embedded code only
  compares them and passes them through, so no overflow is involved.
- Thrown JS errors become explicit error values (`Except` results or an
  `Option` error component); `catch` blocks become the corresponding
  branches.
-/

namespace Web3Playground

/-! ## Session Manager (src/client/src/hooks/useWallet.tsx) -/

/-- State of the wallet hook: the five `useState` cells of `WalletProvider`.
The opaque `provider` and `signer` handles are modelled by their presence. -/
structure WalletState where
  isConnected : Bool
  address : Option String
  chainId : Option Nat
  hasProvider : Bool
  hasSigner : Bool
deriving DecidableEq

/-- Environment seen by the wallet hook: presence of `window.ethereum`, the
accounts and network reported by the provider, and the outcomes of the
provider requests the hook can issue. `switchResult` is the outcome of
`wallet_switchEthereumChain` (the error carries the provider error code). -/
structure ProviderEnv where
  present : Bool
  accounts : List String
  networkChainId : Nat
  requestAccountsOk : Bool
  switchResult : Except Nat Unit
  addChainOk : Bool

/-- Errors thrown by the wallet hook operations. -/
inductive WalletError where
  | noWallet
  | noAccounts
  | metamaskNotInstalled
  | userRejectedConnect
  | walletConnectNotImplemented
  | failedToSwitch
  | failedToAddChain
deriving DecidableEq

/-- Native currency record of the fixed Hemi chain configuration. -/
structure NativeCurrency where
  name : String
  symbol : String
  decimals : Nat
deriving DecidableEq

/-- Shape of the record passed verbatim to `wallet_addEthereumChain`. -/
structure ChainConfig where
  chainId : String
  chainName : String
  rpcUrls : List String
  nativeCurrency : NativeCurrency
  blockExplorerUrls : List String
deriving DecidableEq

/-- The constant `HEMI_CHAIN_CONFIG` of useWallet.tsx. -/
def HEMI_CHAIN_CONFIG : ChainConfig :=
  { chainId := "0xA867"
    chainName := "Hemi Network"
    rpcUrls := ["https://rpc.hemi.network/rpc"]
    nativeCurrency := { name := "ETH", symbol := "ETH", decimals := 18 }
    blockExplorerUrls := ["https://explorer.hemi.network/"] }

/-- The constant `HEMI_CHAIN_ID` of useWallet.tsx. -/
def HEMI_CHAIN_ID : Nat := 43111

/-- Requests the hook can issue through `window.ethereum.request`. -/
inductive ProviderRequest where
  | requestAccounts
  | switchEthereumChain (chainId : String)
  | addEthereumChain (cfg : ChainConfig)
deriving DecidableEq

/-- Recognises a `wallet_addEthereumChain` request. -/
def ProviderRequest.isAddChain : ProviderRequest → Bool
  | .addEthereumChain _ => true
  | _ => false

/-- Recognises a `wallet_switchEthereumChain` request. -/
def ProviderRequest.isSwitchChain : ProviderRequest → Bool
  | .switchEthereumChain _ => true
  | _ => false

/-- `resetWalletState` of useWallet.tsx: all five cells back to their
unconnected defaults. -/
def resetWalletState : WalletState :=
  { isConnected := false
    address := none
    chainId := none
    hasProvider := false
    hasSigner := false }

/-- `initializeWallet` of useWallet.tsx.  Reads the provider (`listAccounts`,
`getNetwork`, `getSigner`) and on success replaces the whole state; on any
failure the source resets the state and rethrows, which the callers below
reproduce. -/
def initializeWallet (env : ProviderEnv) : Except WalletError WalletState :=
  if !env.present then
    .error .noWallet
  else
    match env.accounts with
    | [] => .error .noAccounts
    | a :: _ =>
      .ok { isConnected := true
            address := some a
            chainId := some env.networkChainId
            hasProvider := true
            hasSigner := true }

/-- Runs `initializeWallet` the way its callers observe it: on failure the
state has been reset before the error propagates. -/
def runInitializeWallet (env : ProviderEnv) : Except WalletError Unit × WalletState :=
  match initializeWallet env with
  | .ok s => (.ok (), s)
  | .error e => (.error e, resetWalletState)

/-- `handleAccountsChanged` of useWallet.tsx: an empty account list resets
the state, a non-empty one re-derives it from the provider. -/
def handleAccountsChanged (env : ProviderEnv) (accounts : List String)
    (_s : WalletState) : WalletState :=
  match accounts with
  | [] => resetWalletState
  | _ :: _ => (runInitializeWallet env).2

/-- `handleChainChanged` of useWallet.tsx: stores the new chain id (the hex
string of the event is modelled already parsed to a `Nat`), then, only when
currently connected, re-derives the whole state from the provider. -/
def handleChainChanged (env : ProviderEnv) (newChainId : Nat)
    (s : WalletState) : WalletState :=
  let s1 := { s with chainId := some newChainId }
  if s.isConnected then (runInitializeWallet env).2 else s1

/-- `handleDisconnect` of useWallet.tsx. -/
def handleDisconnect (_s : WalletState) : WalletState :=
  resetWalletState

/-- `switchToHemi` of useWallet.tsx.  Returns the thrown error (if any) and
the list of provider requests issued, in order. -/
def switchToHemi (env : ProviderEnv) : Except WalletError Unit × List ProviderRequest :=
  if !env.present then
    (.error .noWallet, [])
  else
    match env.switchResult with
    | .ok () => (.ok (), [.switchEthereumChain HEMI_CHAIN_CONFIG.chainId])
    | .error code =>
      if code = 4902 then
        if env.addChainOk then
          (.ok (),
           [.switchEthereumChain HEMI_CHAIN_CONFIG.chainId,
            .addEthereumChain HEMI_CHAIN_CONFIG])
        else
          (.error .failedToAddChain,
           [.switchEthereumChain HEMI_CHAIN_CONFIG.chainId,
            .addEthereumChain HEMI_CHAIN_CONFIG])
      else
        (.error .failedToSwitch, [.switchEthereumChain HEMI_CHAIN_CONFIG.chainId])

/-- The two wallet types accepted by `connect`. -/
inductive WalletType where
  | metamask
  | walletconnect
deriving DecidableEq

/-- `connect` of useWallet.tsx.  The metamask path requests account access,
initializes the wallet, then attempts a best-effort network switch whose
failure is swallowed; every failure of the connect path itself resets the
state and rethrows.  The walletconnect path throws immediately.  Returns
(thrown error, final state) and the provider requests issued. -/
def connect (walletType : WalletType) (env : ProviderEnv) (_s : WalletState) :
    (Except WalletError Unit × WalletState) × List ProviderRequest :=
  match walletType with
  | .metamask =>
    if !env.present then
      ((.error .metamaskNotInstalled, resetWalletState), [])
    else if !env.requestAccountsOk then
      ((.error .userRejectedConnect, resetWalletState), [.requestAccounts])
    else
      match initializeWallet env with
      | .error e => ((.error e, resetWalletState), [.requestAccounts])
      | .ok s =>
        -- switch failure is caught and only logged: the state is kept
        ((.ok (), s), .requestAccounts :: (switchToHemi env).2)
  | .walletconnect =>
    ((.error .walletConnectNotImplemented, resetWalletState), [])

/-- `disconnect` of useWallet.tsx: unconditional reset, never fails. -/
def disconnect (_s : WalletState) : WalletState :=
  resetWalletState

/-- One operation delivered to the Session Manager: a UI-triggered connect
or disconnect, or one of the three provider events it subscribes to. -/
inductive WalletEvent where
  | connectOp (walletType : WalletType) (env : ProviderEnv)
  | disconnectOp
  | accountsChanged (accounts : List String) (env : ProviderEnv)
  | chainChanged (newChainId : Nat) (env : ProviderEnv)
  | providerDisconnect

/-- Effect of one operation on the session state (thrown errors propagate to
the UI and leave the state as the operation left it). -/
def walletStep (s : WalletState) (e : WalletEvent) : WalletState :=
  match e with
  | .connectOp t env => (connect t env s).1.2
  | .disconnectOp => disconnect s
  | .accountsChanged accounts env => handleAccountsChanged env accounts s
  | .chainChanged c env => handleChainChanged env c s
  | .providerDisconnect => handleDisconnect s

/-- Session state after a sequence of operations. -/
def runWallet (s : WalletState) (events : List WalletEvent) : WalletState :=
  events.foldl walletStep s

/-- Initial state of the hook on page load (all `useState` defaults). -/
def initialWalletState : WalletState := resetWalletState

/-! ## Mint Workflow Controller (src/client/src/pages/FoomPage.tsx) -/

/-- Status of one mint step. -/
inductive StepStatus where
  | pending
  | active
  | complete
  | error
deriving DecidableEq

/-- Identity of the operation bound to a step via its `action` field. -/
inductive MintAction where
  | approveHairAction
  | approveMaxAction
  | executeMinntAction
deriving DecidableEq

/-- One entry of the `mintSteps` list. -/
structure MintStep where
  id : Nat
  title : String
  description : String
  status : StepStatus
  action : Option MintAction
deriving DecidableEq

/-- The `TokenBalance` record of FoomPage.tsx.  The source stores the
formatted decimal strings of the two amounts; the numeric amounts stand in
for them here. -/
structure TokenBalance where
  balance : Nat
  allowance : Nat
  hasBalance : Bool
  hasAllowance : Bool
deriving DecidableEq

/-- The `useState` cells of the Foom page that the workflow touches. -/
structure FoomState where
  isLoading : Bool
  userNFTs : List Nat
  hairBalance : TokenBalance
  maxBalance : TokenBalance
  mintSteps : List MintStep
  currentStep : Nat
deriving DecidableEq

/-- Outcome of one submitted-and-awaited transaction: either the submission
call throws, or `tx.wait()` throws, or the transaction confirms. -/
inductive TxOutcome where
  | submitRejected (code : Nat)
  | confirmFailed (code : Nat)
  | confirmed
deriving DecidableEq

/-- Chain and contract environment of the Foom page: fee constants, current
balances and allowances of the connected address, contract-read health, the
outcome of each transaction the page can submit, and the owned-token ids
the NFT contract reports. `contractsReady` models the guards on the
contract handles and the connected address. -/
structure FoomChain where
  contractsReady : Bool
  readsOk : Bool
  hairFee : Nat
  maxFee : Nat
  hairBalanceOf : Nat
  hairAllowance : Nat
  maxBalanceOf : Nat
  maxAllowance : Nat
  hairApproveOutcome : TxOutcome
  maxApproveOutcome : TxOutcome
  mintOutcome : TxOutcome
  nftTokenIds : List Nat

/-- The FOOM contract address (`CONTRACTS.FOOM.address`), the spender of
both approvals. -/
def FOOM_ADDRESS : String := "0xc519C8bf8952325340e29415FfFa3F675e14bcD3"

/-- Chain interactions the workflow performs. -/
inductive ChainTx where
  | approveHairTx (spender : String) (amount : Nat)
  | approveMaxTx (spender : String) (amount : Nat)
  | mintSubmit
  | nftFetch
deriving DecidableEq

/-- The fresh four-step list built by `initializeMintSteps`. -/
def initialMintSteps : List MintStep :=
  [ { id := 1
      title := "Check Token Balances"
      description := "Verify you have sufficient HAIR and MAX tokens"
      status := .pending
      action := none }
  , { id := 2
      title := "Approve HAIR Token"
      description := "Allow the contract to spend your HAIR tokens"
      status := .pending
      action := some .approveHairAction }
  , { id := 3
      title := "Approve MAX Token"
      description := "Allow the contract to spend your MAX tokens"
      status := .pending
      action := some .approveMaxAction }
  , { id := 4
      title := "Mint NFT"
      description := "Burn tokens and mint your Foom NFT"
      status := .pending
      action := some .executeMinntAction } ]

/-- `initializeMintSteps` of FoomPage.tsx. -/
def initializeMintSteps (s : FoomState) : FoomState :=
  { s with mintSteps := initialMintSteps }

/-- `updateStepStatus` of FoomPage.tsx: map over the list, replacing the
status of the step whose id matches. -/
def updateStepStatus (steps : List MintStep) (stepId : Nat) (status : StepStatus) :
    List MintStep :=
  steps.map fun step => if step.id = stepId then { step with status := status } else step

/-- Statuses of a step list, in order. -/
def stepStatuses (steps : List MintStep) : List StepStatus :=
  steps.map fun step => step.status

/-- `checkTokenBalances` of FoomPage.tsx.  Reads the two fee constants and
the caller balances and allowances, stores the two `TokenBalance` records,
marks step 1 complete and then decides which later steps to mark from the
freshly read allowances (`!hairAllow.gte(hairFee)` is `hairAllow < hairFee`).
A failing read takes the catch branch: step 1 ends in error.  No
transaction is submitted. -/
def checkTokenBalances (env : FoomChain) (s : FoomState) : FoomState × List ChainTx :=
  if !env.contractsReady then (s, [])
  else
    let s1 := { s with isLoading := true
                       mintSteps := updateStepStatus s.mintSteps 1 .active }
    if !env.readsOk then
      ({ s1 with mintSteps := updateStepStatus s1.mintSteps 1 .error
                 isLoading := false }, [])
    else
      let s2 := { s1 with
        hairBalance :=
          { balance := env.hairBalanceOf
            allowance := env.hairAllowance
            hasBalance := decide (env.hairFee ≤ env.hairBalanceOf)
            hasAllowance := decide (env.hairFee ≤ env.hairAllowance) }
        maxBalance :=
          { balance := env.maxBalanceOf
            allowance := env.maxAllowance
            hasBalance := decide (env.maxFee ≤ env.maxBalanceOf)
            hasAllowance := decide (env.maxFee ≤ env.maxAllowance) } }
      let s3 := { s2 with mintSteps := updateStepStatus s2.mintSteps 1 .complete }
      let s4 :=
        if env.hairAllowance < env.hairFee then
          { s3 with mintSteps := updateStepStatus s3.mintSteps 2 .pending,
                    currentStep := 1 }
        else if env.maxAllowance < env.maxFee then
          let steps := updateStepStatus (updateStepStatus s3.mintSteps 2 .complete) 3 .pending
          { s3 with mintSteps := steps, currentStep := 2 }
        else
          let steps2 := updateStepStatus s3.mintSteps 2 .complete
          let steps3 := updateStepStatus steps2 3 .complete
          let steps4 := updateStepStatus steps3 4 .pending
          { s3 with mintSteps := steps4, currentStep := 3 }
      ({ s4 with isLoading := false }, [])

/-- `approveHair` of FoomPage.tsx.  Marks step 2 active, submits
`approve(CONTRACTS.FOOM.address, hairFee)` for the freshly read fee and
awaits it; any throw takes the catch branch, which only marks step 2
error.  On confirmation it marks step 2 complete and advances by testing
`maxBalance.hasAllowance`.  In the source this function is reached through
the step action closure built by `initializeMintSteps`, which captured the
`maxBalance` of the render in which the steps were created — before
`checkTokenBalances` updated it — so the record read here is the explicit
argument `capturedMaxBalance`, distinct from the invocation-time state `s`
on which the functional `setMintSteps` updates and `setCurrentStep` act. -/
def approveHair (env : FoomChain) (capturedMaxBalance : TokenBalance) (s : FoomState) :
    FoomState × List ChainTx :=
  if !env.contractsReady then (s, [])
  else
    let s1 := { s with isLoading := true
                       mintSteps := updateStepStatus s.mintSteps 2 .active }
    match env.hairApproveOutcome with
    | .submitRejected _ =>
      ({ s1 with mintSteps := updateStepStatus s1.mintSteps 2 .error
                 isLoading := false }, [])
    | .confirmFailed _ =>
      ({ s1 with mintSteps := updateStepStatus s1.mintSteps 2 .error
                 isLoading := false },
       [.approveHairTx FOOM_ADDRESS env.hairFee])
    | .confirmed =>
      let s2 := { s1 with mintSteps := updateStepStatus s1.mintSteps 2 .complete }
      let s3 :=
        if !capturedMaxBalance.hasAllowance then
          { s2 with mintSteps := updateStepStatus s2.mintSteps 3 .pending,
                    currentStep := 2 }
        else
          let steps := updateStepStatus (updateStepStatus s2.mintSteps 3 .complete) 4 .pending
          { s2 with mintSteps := steps, currentStep := 3 }
      ({ s3 with isLoading := false }, [.approveHairTx FOOM_ADDRESS env.hairFee])

/-- `approveMax` of FoomPage.tsx: the symmetric approval for the MAX token;
on confirmation it unconditionally marks step 3 complete and step 4
pending. -/
def approveMax (env : FoomChain) (s : FoomState) : FoomState × List ChainTx :=
  if !env.contractsReady then (s, [])
  else
    let s1 := { s with isLoading := true
                       mintSteps := updateStepStatus s.mintSteps 3 .active }
    match env.maxApproveOutcome with
    | .submitRejected _ =>
      ({ s1 with mintSteps := updateStepStatus s1.mintSteps 3 .error
                 isLoading := false }, [])
    | .confirmFailed _ =>
      ({ s1 with mintSteps := updateStepStatus s1.mintSteps 3 .error
                 isLoading := false },
       [.approveMaxTx FOOM_ADDRESS env.maxFee])
    | .confirmed =>
      let steps := updateStepStatus (updateStepStatus s1.mintSteps 3 .complete) 4 .pending
      let s2 := { s1 with mintSteps := steps, currentStep := 3 }
      ({ s2 with isLoading := false }, [.approveMaxTx FOOM_ADDRESS env.maxFee])

/-- `loadUserNFTs` of FoomPage.tsx: re-reads the owned-token list; a failing
read is caught and leaves the previous list. -/
def loadUserNFTs (env : FoomChain) (s : FoomState) : FoomState × List ChainTx :=
  if !env.contractsReady then (s, [])
  else if env.readsOk then
    ({ s with userNFTs := env.nftTokenIds }, [.nftFetch])
  else
    (s, [.nftFetch])

/-- `executeMinnt` of FoomPage.tsx.  Marks step 4 active, submits `mint()`
and awaits it; on confirmation marks step 4 complete, then refreshes the
owned-token list and re-runs the balance check against the post-mint chain
state `envAfter`; any throw takes the catch branch, which only marks step 4
error. -/
def executeMinnt (env envAfter : FoomChain) (s : FoomState) : FoomState × List ChainTx :=
  if !env.contractsReady then (s, [])
  else
    let s1 := { s with isLoading := true
                       mintSteps := updateStepStatus s.mintSteps 4 .active }
    match env.mintOutcome with
    | .submitRejected _ =>
      ({ s1 with mintSteps := updateStepStatus s1.mintSteps 4 .error
                 isLoading := false }, [])
    | .confirmFailed _ =>
      ({ s1 with mintSteps := updateStepStatus s1.mintSteps 4 .error
                 isLoading := false }, [.mintSubmit])
    | .confirmed =>
      let s2 := { s1 with mintSteps := updateStepStatus s1.mintSteps 4 .complete }
      let r3 := loadUserNFTs envAfter s2
      let r4 := checkTokenBalances envAfter r3.1
      ({ r4.1 with isLoading := false }, .mintSubmit :: (r3.2 ++ r4.2))

/-- Initial Foom page state: the `useState` defaults. -/
def initialFoomState : FoomState :=
  { isLoading := false
    userNFTs := []
    hairBalance := { balance := 0, allowance := 0, hasBalance := false, hasAllowance := false }
    maxBalance := { balance := 0, allowance := 0, hasBalance := false, hasAllowance := false }
    mintSteps := []
    currentStep := 0 }

/-! ## Free-mint workflow (WentgePage, src/unnamed/part_005) -/

/-- Environment of the WENTGE page: wallet context read from `useWallet`,
contract-handle readiness, the caller NFT balance reported by the contract,
the outcome of a submitted mint, and whether a thrown mint error message
contains the one-per-address marker the catch block tests for. -/
structure WentgeEnv where
  contractReady : Bool
  hasAddress : Bool
  isConnected : Bool
  chainId : Option Nat
  readsOk : Bool
  balanceOf : Nat
  mintOutcome : TxOutcome
  mintErrorOnlyOneMsg : Bool
  nftTokenIds : List Nat

/-- The `useState` cells of the WENTGE page that the workflow touches. -/
structure WentgeState where
  isLoading : Bool
  userNFTs : List Nat
  canMint : Bool
  hasCheckedEligibility : Bool
deriving DecidableEq

/-- Error kinds surfaced by `handleMint`, one per destructive toast of the
source.  `alreadyMinted` is the kind shown by the local eligibility guard
and by the contract-side one-per-wallet rejection: the contract-precondition
failure of the error taxonomy. -/
inductive WentgeMintError where
  | walletRequired
  | wrongNetwork
  | alreadyMinted
  | userRejected
  | genericFailure
deriving DecidableEq

/-- Transactions and fetches of the WENTGE page. -/
inductive WentgeTx where
  | mintSubmit
  | nftFetch
deriving DecidableEq

/-- `checkMintEligibility` of the WENTGE page: reads `balanceOf(address)`
and records whether it is zero; a failing read is caught and only toasts. -/
def checkMintEligibility (env : WentgeEnv) (s : WentgeState) : WentgeState :=
  if !(env.contractReady && env.hasAddress) then s
  else if env.readsOk then
    { s with canMint := decide (env.balanceOf = 0)
             hasCheckedEligibility := true
             isLoading := false }
  else
    { s with isLoading := false }

/-- `loadUserNFTs` of the WENTGE page. -/
def loadWentgeNFTs (env : WentgeEnv) (s : WentgeState) : WentgeState × List WentgeTx :=
  if !(env.contractReady && env.hasAddress) then (s, [])
  else if env.readsOk then
    ({ s with userNFTs := env.nftTokenIds, isLoading := false }, [.nftFetch])
  else
    ({ s with isLoading := false }, [.nftFetch])

/-- Classification of a thrown mint error in the catch block of
`handleMint`: wallet cancellation code 4001, the one-per-address contract
message, or the generic fallback. -/
def classifyWentgeMintError (code : Nat) (onlyOneMsg : Bool) : WentgeMintError :=
  if code = 4001 then .userRejected
  else if onlyOneMsg then .alreadyMinted
  else .genericFailure

/-- `handleMint` of the WENTGE page.  Three local guards run before any
transaction: wallet connection, target network, and the recorded
eligibility (`canMint`); only past them is `mint()` submitted and awaited,
after which eligibility and the owned-token list are refreshed against the
post-mint chain state `envAfter`. -/
def handleMint (env envAfter : WentgeEnv) (s : WentgeState) :
    (WentgeState × Option WentgeMintError) × List WentgeTx :=
  if !(env.contractReady && env.isConnected) then
    ((s, some .walletRequired), [])
  else if env.chainId ≠ some HEMI_CHAIN_ID then
    ((s, some .wrongNetwork), [])
  else if !s.canMint then
    ((s, some .alreadyMinted), [])
  else
    let s1 := { s with isLoading := true }
    match env.mintOutcome with
    | .submitRejected code =>
      (({ s1 with isLoading := false },
        some (classifyWentgeMintError code env.mintErrorOnlyOneMsg)), [])
    | .confirmFailed code =>
      (({ s1 with isLoading := false },
        some (classifyWentgeMintError code env.mintErrorOnlyOneMsg)), [.mintSubmit])
    | .confirmed =>
      let s2 := checkMintEligibility envAfter s1
      let r3 := loadWentgeNFTs envAfter s2
      (({ r3.1 with isLoading := false }, none), .mintSubmit :: r3.2)

/-- Initial WENTGE page state: the `useState` defaults. -/
def initialWentgeState : WentgeState :=
  { isLoading := false
    userNFTs := []
    canMint := false
    hasCheckedEligibility := false }

/-! ## Concrete environments used in counterexamples and witnesses -/

/-- A provider environment with no injected wallet. -/
def envAbsent : ProviderEnv :=
  { present := false
    accounts := []
    networkChainId := 0
    requestAccountsOk := false
    switchResult := .ok ()
    addChainOk := false }

/-- A healthy provider environment: one authorized account on Hemi. -/
def envGood : ProviderEnv :=
  { present := true
    accounts := ["0xabc"]
    networkChainId := 43111
    requestAccountsOk := true
    switchResult := .ok ()
    addChainOk := true }

/-! ## Theorems -/

/-- Index-wise description of `updateStepStatus`. -/
theorem updateStepStatus_getElem (steps : List MintStep) (stepId : Nat)
    (status : StepStatus) (i : Nat) :
    (updateStepStatus steps stepId status)[i]? =
      (steps[i]?).map
        (fun step => if step.id = stepId then { step with status := status } else step) := by
  simp [updateStepStatus]

/-- On failure, `runInitializeWallet` leaves the reset state; on success the
state has both address and chain id populated. -/
theorem runInitializeWallet_inv (env : ProviderEnv) :
    (runInitializeWallet env).2.address.isSome = true →
    (runInitializeWallet env).2.chainId.isSome = true := by
  unfold runInitializeWallet initializeWallet
  cases hpres : env.present
  · simp [resetWalletState]
  · cases hacc : env.accounts <;> simp [resetWalletState]

/-- The state `connect` leaves behind never has an address without a chain
id. -/
theorem connect_state_inv (t : WalletType) (env : ProviderEnv) (s : WalletState) :
    (connect t env s).1.2.address.isSome = true →
    (connect t env s).1.2.chainId.isSome = true := by
  cases t
  case metamask =>
    unfold connect
    cases hpres : env.present
    · simp [resetWalletState]
    · cases hreq : env.requestAccountsOk
      · simp [resetWalletState]
      · unfold initializeWallet
        cases hacc : env.accounts <;> simp [hpres, resetWalletState]
  case walletconnect =>
    simp [connect, resetWalletState]

/-- Every single operation leaves a state in which a populated address
implies a populated chain id. -/
theorem walletStep_inv (s : WalletState) (e : WalletEvent) :
    (walletStep s e).address.isSome = true →
    (walletStep s e).chainId.isSome = true := by
  cases e with
  | connectOp t env => exact connect_state_inv t env s
  | disconnectOp => simp [walletStep, disconnect, resetWalletState]
  | accountsChanged accounts env =>
    cases accounts with
    | nil => simp [walletStep, handleAccountsChanged, resetWalletState]
    | cons a tl =>
      simpa [walletStep, handleAccountsChanged] using runInitializeWallet_inv env
  | chainChanged c env =>
    unfold walletStep handleChainChanged
    cases hconn : s.isConnected
    · simp
    · simpa using runInitializeWallet_inv env
  | providerDisconnect => simp [walletStep, handleDisconnect, resetWalletState]

/-- Claim C1, counterexample: delivering a single chainChanged event while
disconnected leaves `chainId` set and `address` unset, so the two are not
always both set or both unset. -/
theorem C1_counterexample :
    (runWallet initialWalletState [.chainChanged 1 envAbsent]).chainId = some 1 ∧
    (runWallet initialWalletState [.chainChanged 1 envAbsent]).address = none := by
  exact ⟨rfl, rfl⟩

/-- Claim C1, amended: after any sequence of connect, disconnect, and
provider-event operations, if the session address is set then the network
id is set; the converse direction fails, since a chainChanged event
delivered while disconnected stores the chain id alone. -/
theorem C1_amended (events : List WalletEvent) :
    (runWallet initialWalletState events).address.isSome = true →
    (runWallet initialWalletState events).chainId.isSome = true := by
  have main : ∀ (es : List WalletEvent) (s : WalletState),
      (s.address.isSome = true → s.chainId.isSome = true) →
      ((es.foldl walletStep s).address.isSome = true →
       (es.foldl walletStep s).chainId.isSome = true) := by
    intro es
    induction es with
    | nil => intro s hs; simpa using hs
    | cons e tl ih => intro s _; exact ih (walletStep s e) (walletStep_inv s e)
  exact main events initialWalletState (by simp [initialWalletState, resetWalletState])

/-- Claim C1 witness: a concrete run reaching a connected state, on which
the amended implication is discharged. -/
theorem C1_witness :
    (runWallet initialWalletState [.accountsChanged ["0xabc"] envGood]).address.isSome = true ∧
    (runWallet initialWalletState [.accountsChanged ["0xabc"] envGood]).chainId.isSome = true :=
  ⟨rfl, C1_amended [.accountsChanged ["0xabc"] envGood] rfl⟩

/-- Claim C4: any sequence of accountsChanged events whose final event
carries an empty account list leaves the session unconnected with address
and chain id both unset, from any starting state. -/
theorem C4_accountsChanged_empty_resets
    (prior : List (List String × ProviderEnv)) (env : ProviderEnv) (s : WalletState) :
    (runWallet s
        (prior.map (fun p => WalletEvent.accountsChanged p.1 p.2) ++
         [WalletEvent.accountsChanged [] env])).isConnected = false ∧
    (runWallet s
        (prior.map (fun p => WalletEvent.accountsChanged p.1 p.2) ++
         [WalletEvent.accountsChanged [] env])).address = none ∧
    (runWallet s
        (prior.map (fun p => WalletEvent.accountsChanged p.1 p.2) ++
         [WalletEvent.accountsChanged [] env])).chainId = none := by
  simp [runWallet, List.foldl_append, walletStep, handleAccountsChanged, resetWalletState]

/-- Claim C8: connecting with the walletconnect method throws the
not-implemented error without issuing any provider request, and the
resulting session state is the fully reset unconnected state. -/
theorem C8_walletconnect_not_implemented (env : ProviderEnv) (s : WalletState) :
    connect .walletconnect env s =
      ((.error .walletConnectNotImplemented, resetWalletState), []) ∧
    resetWalletState.isConnected = false ∧
    resetWalletState.address = none ∧
    resetWalletState.chainId = none ∧
    resetWalletState.hasProvider = false ∧
    resetWalletState.hasSigner = false := by
  exact ⟨rfl, rfl, rfl, rfl, rfl, rfl⟩

/-- Claim C6: when the provider rejects the switch with code 4902 the
manager issues exactly the original switch request followed by exactly one
add-chain request carrying the fixed Hemi configuration record and never a
second switch; on any other provider error code it issues no add-chain
request and throws the generic failed-to-switch error. -/
theorem C6_switchNetwork (env : ProviderEnv) (code : Nat)
    (hp : env.present = true) (hs : env.switchResult = .error code) :
    (code = 4902 →
      (switchToHemi env).2 =
        [.switchEthereumChain HEMI_CHAIN_CONFIG.chainId,
         .addEthereumChain HEMI_CHAIN_CONFIG]) ∧
    (code ≠ 4902 →
      (switchToHemi env).1 = .error .failedToSwitch ∧
      (switchToHemi env).2 = [.switchEthereumChain HEMI_CHAIN_CONFIG.chainId]) := by
  unfold switchToHemi
  rw [hs]
  refine ⟨fun h4902 => ?_, fun hne => ?_⟩
  · cases hadd : env.addChainOk <;> simp [hp, h4902, hadd]
  · simp [hp, hne]

/-- Claim C6 witness: a present provider rejecting the switch with code
4902 yields the switch request and the single add-chain request. -/
theorem C6_witness :
    (switchToHemi
        { envGood with switchResult := .error 4902 }).2 =
      [.switchEthereumChain HEMI_CHAIN_CONFIG.chainId,
       .addEthereumChain HEMI_CHAIN_CONFIG] :=
  (C6_switchNetwork { envGood with switchResult := .error 4902 } 4902 rfl rfl).1 rfl

/-- Claim C10: `updateStepStatus` preserves length and order; the entries
whose id matches keep their id, title, description and action and only have
their status replaced, and every entry with a different id is returned
unchanged. -/
theorem C10_updateStepStatus_frame (steps : List MintStep) (stepId : Nat)
    (status : StepStatus) :
    (updateStepStatus steps stepId status).length = steps.length ∧
    (∀ (i : Nat) (step : MintStep), steps[i]? = some step →
      (updateStepStatus steps stepId status)[i]? =
        some (if step.id = stepId
              then { id := step.id, title := step.title, description := step.description,
                     status := status, action := step.action }
              else step)) := by
  refine ⟨by simp [updateStepStatus], fun i step h => ?_⟩
  rw [updateStepStatus_getElem, h]
  rfl

/-- Claim C10 witness: the frame property evaluated on a concrete one-step
list. -/
theorem C10_witness :
    (updateStepStatus
        [{ id := 2, title := "Approve HAIR Token",
           description := "Allow the contract to spend your HAIR tokens",
           status := .pending, action := some .approveHairAction }] 2 .complete).length = 1 ∧
    (updateStepStatus
        [{ id := 2, title := "Approve HAIR Token",
           description := "Allow the contract to spend your HAIR tokens",
           status := .pending, action := some .approveHairAction }] 2 .complete)[0]? =
      some { id := 2, title := "Approve HAIR Token",
             description := "Allow the contract to spend your HAIR tokens",
             status := .complete, action := some .approveHairAction } := by
  have h := C10_updateStepStatus_frame
    [{ id := 2, title := "Approve HAIR Token",
       description := "Allow the contract to spend your HAIR tokens",
       status := .pending, action := some .approveHairAction }] 2 .complete
  exact ⟨h.1, by simpa using h.2 0 _ rfl⟩

/-- Chain environment in which both allowances already meet the fees. -/
def envBothSufficient : FoomChain :=
  { contractsReady := true
    readsOk := true
    hairFee := 3000
    maxFee := 100
    hairBalanceOf := 5000
    hairAllowance := 3000
    maxBalanceOf := 200
    maxAllowance := 100
    hairApproveOutcome := .confirmed
    maxApproveOutcome := .confirmed
    mintOutcome := .confirmed
    nftTokenIds := [1] }

/-- Claim C2, counterexample: with both allowances sufficient the
balance-check marks the mint step with status pending (made current via
`currentStep`), not with status active as the claim states. -/
theorem C2_counterexample :
    stepStatuses
        (checkTokenBalances envBothSufficient (initializeMintSteps initialFoomState)).1.mintSteps =
      [.complete, .complete, .complete, .pending] ∧
    (stepStatuses
        (checkTokenBalances envBothSufficient (initializeMintSteps initialFoomState)).1.mintSteps)[3]? ≠
      some .active := by
  exact ⟨rfl, by decide⟩

/-- Claim C2, amended: if both allowances already meet their fees at
balance-check time, both approval steps are marked complete without any
transaction being submitted, and the mint step immediately becomes the
current actionable step (`currentStep` = its index) with status pending. -/
theorem C2_amended (env : FoomChain) (s : FoomState)
    (hc : env.contractsReady = true) (hr : env.readsOk = true)
    (hhair : env.hairFee ≤ env.hairAllowance) (hmax : env.maxFee ≤ env.maxAllowance) :
    stepStatuses (checkTokenBalances env (initializeMintSteps s)).1.mintSteps =
      [.complete, .complete, .complete, .pending] ∧
    (checkTokenBalances env (initializeMintSteps s)).1.currentStep = 3 ∧
    (checkTokenBalances env (initializeMintSteps s)).2 = [] := by
  unfold checkTokenBalances initializeMintSteps
  simp [hc, hr, Nat.not_lt.mpr hhair, Nat.not_lt.mpr hmax, updateStepStatus,
        initialMintSteps, stepStatuses]

/-- Claim C2 witness: the amended statement discharged on a concrete
environment. -/
theorem C2_witness :
    stepStatuses
        (checkTokenBalances envBothSufficient (initializeMintSteps initialFoomState)).1.mintSteps =
      [.complete, .complete, .complete, .pending] ∧
    (checkTokenBalances envBothSufficient (initializeMintSteps initialFoomState)).1.currentStep = 3 ∧
    (checkTokenBalances envBothSufficient (initializeMintSteps initialFoomState)).2 = [] :=
  C2_amended envBothSufficient initialFoomState rfl rfl (by decide) (by decide)

/-- Chain environment in which the HAIR allowance is 0 (fee positive) and
the MAX allowance is sufficient. -/
def envHairInsufficient : FoomChain :=
  { contractsReady := true
    readsOk := true
    hairFee := 3000
    maxFee := 100
    hairBalanceOf := 5000
    hairAllowance := 0
    maxBalanceOf := 200
    maxAllowance := 100
    hairApproveOutcome := .confirmed
    maxApproveOutcome := .confirmed
    mintOutcome := .confirmed
    nftTokenIds := [7] }

/-- Claim C3, counterexample: when the balance-check finds the HAIR
allowance 0 and the MAX allowance sufficient, the resulting statuses are
[complete, pending, pending, pending]; the MAX approval step stays pending
rather than being marked complete as the claimed first snapshot states. -/
theorem C3_counterexample :
    stepStatuses
        (checkTokenBalances envHairInsufficient (initializeMintSteps initialFoomState)).1.mintSteps =
      [.complete, .pending, .pending, .pending] ∧
    stepStatuses
        (checkTokenBalances envHairInsufficient (initializeMintSteps initialFoomState)).1.mintSteps ≠
      [.complete, .pending, .complete, .pending] := by
  exact ⟨rfl, by decide⟩

/-- Claim C3, amended: on a fresh run (the captured `maxBalance` of the
step closures still has `hasAllowance` false) with HAIR allowance 0 (fee
positive) and MAX allowance sufficient on chain, the balance-check
produces statuses [complete, pending, pending, pending] with the HAIR
approval as the current actionable step; after the HAIR approval confirms,
the stale captured record sends the workflow to the MAX approval — the
statuses are [complete, complete, pending, pending] with `currentStep` 2,
so a redundant MAX approval is demanded rather than the claimed jump to
the mint step; after that MAX approval confirms the statuses are
[complete, complete, complete, pending] with the mint as the current
actionable step; upon mint confirmation step 4 is completed so all four
statuses read complete, and the owned-token list is re-fetched. -/
theorem C3_amended (env envAfter : FoomChain) (s : FoomState)
    (hc : env.contractsReady = true) (hr : env.readsOk = true)
    (h0 : env.hairAllowance = 0) (hf : 0 < env.hairFee)
    (hmax : env.maxFee ≤ env.maxAllowance)
    (hcap : s.maxBalance.hasAllowance = false)
    (happrove : env.hairApproveOutcome = .confirmed)
    (hmaxap : env.maxApproveOutcome = .confirmed)
    (hmint : env.mintOutcome = .confirmed)
    (hac : envAfter.contractsReady = true) (har : envAfter.readsOk = true) :
    stepStatuses (checkTokenBalances env (initializeMintSteps s)).1.mintSteps =
      [.complete, .pending, .pending, .pending] ∧
    (checkTokenBalances env (initializeMintSteps s)).1.currentStep = 1 ∧
    stepStatuses
        (approveHair env s.maxBalance
          (checkTokenBalances env (initializeMintSteps s)).1).1.mintSteps =
      [.complete, .complete, .pending, .pending] ∧
    (approveHair env s.maxBalance
        (checkTokenBalances env (initializeMintSteps s)).1).1.currentStep = 2 ∧
    stepStatuses
        (approveMax env
          (approveHair env s.maxBalance
            (checkTokenBalances env (initializeMintSteps s)).1).1).1.mintSteps =
      [.complete, .complete, .complete, .pending] ∧
    (approveMax env
        (approveHair env s.maxBalance
          (checkTokenBalances env (initializeMintSteps s)).1).1).1.currentStep = 3 ∧
    stepStatuses
        (updateStepStatus
          (updateStepStatus
            (approveMax env
              (approveHair env s.maxBalance
                (checkTokenBalances env (initializeMintSteps s)).1).1).1.mintSteps
            4 .active)
          4 .complete) =
      [.complete, .complete, .complete, .complete] ∧
    ChainTx.nftFetch ∈
      (executeMinnt env envAfter
        (approveMax env
          (approveHair env s.maxBalance
            (checkTokenBalances env (initializeMintSteps s)).1).1).1).2 := by
  simp [checkTokenBalances, initializeMintSteps, approveHair, approveMax, executeMinnt,
        loadUserNFTs, initialMintSteps, updateStepStatus, stepStatuses,
        hc, hr, h0, hf, hmax, hcap, happrove, hmaxap, hmint, hac, har]

/-- Claim C3 witness: the amended scenario discharged on concrete pre- and
post-mint environments, starting from the fresh page state. -/
theorem C3_witness :
    stepStatuses
        (checkTokenBalances envHairInsufficient (initializeMintSteps initialFoomState)).1.mintSteps =
      [.complete, .pending, .pending, .pending] ∧
    (checkTokenBalances envHairInsufficient (initializeMintSteps initialFoomState)).1.currentStep = 1 ∧
    stepStatuses
        (approveHair envHairInsufficient initialFoomState.maxBalance
          (checkTokenBalances envHairInsufficient (initializeMintSteps initialFoomState)).1).1.mintSteps =
      [.complete, .complete, .pending, .pending] ∧
    (approveHair envHairInsufficient initialFoomState.maxBalance
        (checkTokenBalances envHairInsufficient (initializeMintSteps initialFoomState)).1).1.currentStep = 2 ∧
    stepStatuses
        (approveMax envHairInsufficient
          (approveHair envHairInsufficient initialFoomState.maxBalance
            (checkTokenBalances envHairInsufficient (initializeMintSteps initialFoomState)).1).1).1.mintSteps =
      [.complete, .complete, .complete, .pending] ∧
    (approveMax envHairInsufficient
        (approveHair envHairInsufficient initialFoomState.maxBalance
          (checkTokenBalances envHairInsufficient (initializeMintSteps initialFoomState)).1).1).1.currentStep = 3 ∧
    stepStatuses
        (updateStepStatus
          (updateStepStatus
            (approveMax envHairInsufficient
              (approveHair envHairInsufficient initialFoomState.maxBalance
                (checkTokenBalances envHairInsufficient (initializeMintSteps initialFoomState)).1).1).1.mintSteps
            4 .active)
          4 .complete) =
      [.complete, .complete, .complete, .complete] ∧
    ChainTx.nftFetch ∈
      (executeMinnt envHairInsufficient envHairInsufficient
        (approveMax envHairInsufficient
          (approveHair envHairInsufficient initialFoomState.maxBalance
            (checkTokenBalances envHairInsufficient (initializeMintSteps initialFoomState)).1).1).1).2 :=
  C3_amended envHairInsufficient envHairInsufficient initialFoomState
    rfl rfl rfl (by decide) (by decide) rfl rfl rfl rfl rfl rfl

/-- A double status update of the same step id acts as the last update on
matching entries and leaves the rest unchanged. -/
theorem updateTwice_getElem (steps : List MintStep) (n : Nat) (a b : StepStatus)
    (i : Nat) (step : MintStep) (h : steps[i]? = some step) :
    (updateStepStatus (updateStepStatus steps n a) n b)[i]? =
      some (if step.id = n then { step with status := b } else step) := by
  rw [updateStepStatus_getElem, updateStepStatus_getElem, h]
  by_cases hid : step.id = n <;> simp [hid]

/-- An entry whose id differs from the updated one is returned unchanged. -/
theorem updateStepStatus_preserve (steps : List MintStep) (n : Nat) (st : StepStatus)
    (i : Nat) (step : MintStep) (h : steps[i]? = some step) (hne : step.id ≠ n) :
    (updateStepStatus steps n st)[i]? = some step := by
  rw [updateStepStatus_getElem, h]
  simp [hne]

/-- An entry whose id matches the updated one has its status replaced. -/
theorem updateStepStatus_set (steps : List MintStep) (n : Nat) (st : StepStatus)
    (i : Nat) (step : MintStep) (h : steps[i]? = some step) (heq : step.id = n) :
    (updateStepStatus steps n st)[i]? = some { step with status := st } := by
  rw [updateStepStatus_getElem, h]
  simp [heq]

/-- Claim C5: when an approval transaction submission or confirmation
throws, that step (and only that step) transitions to error, every other
step keeps its exact previous state (so subsequent pending steps stay
pending and none becomes active or complete), `currentStep` does not
advance, and at most the one failed submission was issued — no retry. -/
theorem C5_approval_error (env : FoomChain) (cap : TokenBalance) (s : FoomState)
    (hc : env.contractsReady = true) :
    (env.hairApproveOutcome ≠ .confirmed →
      (∀ (i : Nat) (step : MintStep), s.mintSteps[i]? = some step →
        (approveHair env cap s).1.mintSteps[i]? =
          some (if step.id = 2 then { step with status := .error } else step)) ∧
      (approveHair env cap s).1.currentStep = s.currentStep ∧
      (approveHair env cap s).2.length ≤ 1) ∧
    (env.maxApproveOutcome ≠ .confirmed →
      (∀ (i : Nat) (step : MintStep), s.mintSteps[i]? = some step →
        (approveMax env s).1.mintSteps[i]? =
          some (if step.id = 3 then { step with status := .error } else step)) ∧
      (approveMax env s).1.currentStep = s.currentStep ∧
      (approveMax env s).2.length ≤ 1) := by
  constructor
  · intro hfail
    unfold approveHair
    cases ho : env.hairApproveOutcome with
    | confirmed => exact absurd ho hfail
    | submitRejected code =>
      simp only [hc, Bool.not_true, Bool.false_eq_true, if_false]
      exact ⟨fun i step h => updateTwice_getElem s.mintSteps 2 .active .error i step h,
             by trivial, by simp⟩
    | confirmFailed code =>
      simp only [hc, Bool.not_true, Bool.false_eq_true, if_false]
      exact ⟨fun i step h => updateTwice_getElem s.mintSteps 2 .active .error i step h,
             by trivial, by simp⟩
  · intro hfail
    unfold approveMax
    cases ho : env.maxApproveOutcome with
    | confirmed => exact absurd ho hfail
    | submitRejected code =>
      simp only [hc, Bool.not_true, Bool.false_eq_true, if_false]
      exact ⟨fun i step h => updateTwice_getElem s.mintSteps 3 .active .error i step h,
             by trivial, by simp⟩
    | confirmFailed code =>
      simp only [hc, Bool.not_true, Bool.false_eq_true, if_false]
      exact ⟨fun i step h => updateTwice_getElem s.mintSteps 3 .active .error i step h,
             by trivial, by simp⟩

/-- Chain environment in which both approvals are rejected by the user. -/
def envApproveRejected : FoomChain :=
  { envHairInsufficient with
    hairApproveOutcome := .submitRejected 4001
    maxApproveOutcome := .submitRejected 4001 }

/-- Claim C5 witness: a rejected HAIR approval on the freshly initialized
steps leaves step 2 in error, steps 3 and 4 untouched and pending, the
current step unmoved, and no submitted transaction. -/
theorem C5_witness :
    (approveHair envApproveRejected initialFoomState.maxBalance (initializeMintSteps initialFoomState)).1.mintSteps[1]? =
      some { id := 2, title := "Approve HAIR Token",
             description := "Allow the contract to spend your HAIR tokens",
             status := .error, action := some .approveHairAction } ∧
    (approveHair envApproveRejected initialFoomState.maxBalance (initializeMintSteps initialFoomState)).1.mintSteps[2]? =
      some { id := 3, title := "Approve MAX Token",
             description := "Allow the contract to spend your MAX tokens",
             status := .pending, action := some .approveMaxAction } ∧
    (approveHair envApproveRejected initialFoomState.maxBalance (initializeMintSteps initialFoomState)).1.mintSteps[3]? =
      some { id := 4, title := "Mint NFT",
             description := "Burn tokens and mint your Foom NFT",
             status := .pending, action := some .executeMinntAction } ∧
    (approveHair envApproveRejected initialFoomState.maxBalance (initializeMintSteps initialFoomState)).1.currentStep = 0 ∧
    (approveHair envApproveRejected initialFoomState.maxBalance (initializeMintSteps initialFoomState)).2.length ≤ 1 := by
  have h := (C5_approval_error envApproveRejected initialFoomState.maxBalance
    (initializeMintSteps initialFoomState) rfl).1
    (by decide)
  refine ⟨?_, ?_, ?_, by simpa using h.2.1, h.2.2⟩
  · simpa using h.1 1 _ rfl
  · simpa using h.1 2 _ rfl
  · simpa using h.1 3 _ rfl

/-- Claim C9: each approval submits only approve transactions for exactly
the fee amount read from the target contract fee constant (never an
unlimited amount), and the approval step ends complete when and only when
the transaction confirmed, otherwise it ends in error. -/
theorem C9_approve_exact_fee (env : FoomChain) (cap : TokenBalance) (s : FoomState)
    (hc : env.contractsReady = true) :
    (∀ tx ∈ (approveHair env cap s).2, tx = ChainTx.approveHairTx FOOM_ADDRESS env.hairFee) ∧
    (∀ tx ∈ (approveMax env s).2, tx = ChainTx.approveMaxTx FOOM_ADDRESS env.maxFee) ∧
    (∀ (i : Nat) (step : MintStep), s.mintSteps[i]? = some step → step.id = 2 →
      (approveHair env cap s).1.mintSteps[i]? =
        some { step with
               status := if env.hairApproveOutcome = .confirmed then .complete else .error }) ∧
    (∀ (i : Nat) (step : MintStep), s.mintSteps[i]? = some step → step.id = 3 →
      (approveMax env s).1.mintSteps[i]? =
        some { step with
               status := if env.maxApproveOutcome = .confirmed then .complete else .error }) := by
  refine ⟨?_, ?_, ?_, ?_⟩
  · intro tx htx
    unfold approveHair at htx
    cases ho : env.hairApproveOutcome <;>
      simp only [hc, ho, Bool.not_true, Bool.false_eq_true, if_false] at htx <;>
      simp_all
  · intro tx htx
    unfold approveMax at htx
    cases ho : env.maxApproveOutcome <;>
      simp only [hc, ho, Bool.not_true, Bool.false_eq_true, if_false] at htx <;>
      simp_all
  · intro i step h heq
    unfold approveHair
    cases ho : env.hairApproveOutcome with
    | submitRejected code =>
      simp only [hc, Bool.not_true, Bool.false_eq_true, if_false, ho]
      have := updateTwice_getElem s.mintSteps 2 .active .error i step h
      simpa [heq] using this
    | confirmFailed code =>
      simp only [hc, Bool.not_true, Bool.false_eq_true, if_false, ho]
      have := updateTwice_getElem s.mintSteps 2 .active .error i step h
      simpa [heq] using this
    | confirmed =>
      simp only [hc, Bool.not_true, Bool.false_eq_true, if_false, ho]
      have h2 : (updateStepStatus (updateStepStatus s.mintSteps 2 .active) 2 .complete)[i]? =
          some { step with status := .complete } := by
        have := updateTwice_getElem s.mintSteps 2 .active .complete i step h
        simpa [heq] using this
      by_cases hma : (cap.hasAllowance = true)
      · have h3 : (updateStepStatus
            (updateStepStatus (updateStepStatus s.mintSteps 2 .active) 2 .complete)
            3 .complete)[i]? = some { step with status := .complete } :=
          updateStepStatus_preserve _ 3 .complete i _ h2 (by simp [heq])
        have h4 : (updateStepStatus (updateStepStatus
            (updateStepStatus (updateStepStatus s.mintSteps 2 .active) 2 .complete)
            3 .complete) 4 .pending)[i]? = some { step with status := .complete } :=
          updateStepStatus_preserve _ 4 .pending i _ h3 (by simp [heq])
        simp [hma, h4]
      · have h3 : (updateStepStatus
            (updateStepStatus (updateStepStatus s.mintSteps 2 .active) 2 .complete)
            3 .pending)[i]? = some { step with status := .complete } :=
          updateStepStatus_preserve _ 3 .pending i _ h2 (by simp [heq])
        simp [Bool.not_eq_true] at hma
        simp [hma, h3]
  · intro i step h heq
    unfold approveMax
    cases ho : env.maxApproveOutcome with
    | submitRejected code =>
      simp only [hc, Bool.not_true, Bool.false_eq_true, if_false, ho]
      have := updateTwice_getElem s.mintSteps 3 .active .error i step h
      simpa [heq] using this
    | confirmFailed code =>
      simp only [hc, Bool.not_true, Bool.false_eq_true, if_false, ho]
      have := updateTwice_getElem s.mintSteps 3 .active .error i step h
      simpa [heq] using this
    | confirmed =>
      simp only [hc, Bool.not_true, Bool.false_eq_true, if_false, ho]
      have h2 : (updateStepStatus (updateStepStatus s.mintSteps 3 .active) 3 .complete)[i]? =
          some { step with status := .complete } := by
        have := updateTwice_getElem s.mintSteps 3 .active .complete i step h
        simpa [heq] using this
      have h4 : (updateStepStatus (updateStepStatus
          (updateStepStatus s.mintSteps 3 .active) 3 .complete) 4 .pending)[i]? =
          some { step with status := .complete } :=
        updateStepStatus_preserve _ 4 .pending i _ h2 (by simp [heq])
      simp [h4]

/-- Claim C9 witness: on the freshly initialized steps with a confirming
approval, the only submitted transaction carries exactly the fee amount and
step 2 ends complete. -/
theorem C9_witness :
    (∀ tx ∈ (approveHair envHairInsufficient initialFoomState.maxBalance
        (initializeMintSteps initialFoomState)).2,
      tx = ChainTx.approveHairTx FOOM_ADDRESS 3000) ∧
    (approveHair envHairInsufficient initialFoomState.maxBalance
        (initializeMintSteps initialFoomState)).1.mintSteps[1]? =
      some { id := 2, title := "Approve HAIR Token",
             description := "Allow the contract to spend your HAIR tokens",
             status := .complete, action := some .approveHairAction } := by
  have h := C9_approve_exact_fee envHairInsufficient initialFoomState.maxBalance
    (initializeMintSteps initialFoomState) rfl
  refine ⟨h.1, ?_⟩
  have := h.2.2.1 1 _ rfl rfl
  simpa using this

/-- Claim C7: when the eligibility check has seen a nonzero `balanceOf`
(so `canMint` is false), invoking `handleMint` on a connected wallet on the
target network is rejected by the local guard with the already-minted
(contract-precondition-failed) error kind, the state is unchanged, and no
mint transaction is submitted. -/
theorem C7_free_mint_guard (env envAfter : WentgeEnv) (s : WentgeState)
    (hc : env.contractReady = true) (ha : env.hasAddress = true)
    (hr : env.readsOk = true) (hconn : env.isConnected = true)
    (hchain : env.chainId = some HEMI_CHAIN_ID) (hbal : env.balanceOf ≠ 0) :
    handleMint env envAfter (checkMintEligibility env s) =
      ((checkMintEligibility env s, some .alreadyMinted), []) := by
  unfold handleMint checkMintEligibility
  simp [hc, ha, hr, hconn, hchain, hbal]

/-- A WENTGE environment for a wallet that already holds one NFT. -/
def envWentgeMinted : WentgeEnv :=
  { contractReady := true
    hasAddress := true
    isConnected := true
    chainId := some 43111
    readsOk := true
    balanceOf := 1
    mintOutcome := .confirmed
    mintErrorOnlyOneMsg := false
    nftTokenIds := [3] }

/-- Claim C7 witness: the guard evaluated on a concrete already-minted
wallet. -/
theorem C7_witness :
    handleMint envWentgeMinted envWentgeMinted
        (checkMintEligibility envWentgeMinted initialWentgeState) =
      ((checkMintEligibility envWentgeMinted initialWentgeState,
        some .alreadyMinted), []) :=
  C7_free_mint_guard envWentgeMinted envWentgeMinted initialWentgeState
    rfl rfl rfl rfl rfl (by decide)

end Web3Playground
